import Mathlib

/-!
# Verification of the NWTech license-catalog and ordering backend

A shallow embedding of the two source files of the repository
(`main.py` and `schemas.py`) together with proofs about the catalog
search/seed/create workflow and the order pricing/validation workflow.

Conventions of the embedding:

* Monetary amounts (`float` fields in the source) are modelled as rationals.
* Pydantic schema validation is modelled as explicit `Except`-returning
  constructors performing the same field-presence and range checks as the
  schema classes in `schemas.py`.
* The document store (the `database` module of the repository, which is not
  part of the two source files) is modelled from the spec's collaborator
  contract: a catalog collection and an order collection held as lists, with
  `find_one` returning the first match, insertion appending and returning a
  fresh identifier, and case-insensitive regex filtering modelled as
  case-insensitive substring matching.
* Each handler returns its result together with the list of writes it issued
  to the store, so that write-effect claims (exactly one insert on success,
  none on failure) are provable facts rather than artefacts of the model.
-/

set_option autoImplicit false

namespace NWTech

/-! ## Text helpers -/

/-- ASCII lower-casing of a single character, used to model the
case-insensitive (`$options: "i"`) matching of the catalog search. -/
def lcChar (c : Char) : Char :=
  if 'A' ≤ c ∧ c ≤ 'Z' then Char.ofNat (c.toNat + 32) else c

/-- Does `hay` start with `needle`? -/
def startsWithChars : List Char → List Char → Bool
  | [], _ => true
  | _ :: _, [] => false
  | a :: as, b :: bs => a == b && startsWithChars as bs

/-- Does `hay` contain `needle` as a contiguous run? -/
def hasSubChars (needle : List Char) : List Char → Bool
  | [] => needle.isEmpty
  | c :: rest => startsWithChars needle (c :: rest) || hasSubChars needle rest

/-- Case-insensitive substring test: does `hay` contain `needle`
up to ASCII case? -/
def containsCI (hay needle : String) : Bool :=
  hasSubChars (needle.toList.map lcChar) (hay.toList.map lcChar)

/-- Splits a character list on a separator character. -/
def splitChar (c : Char) : List Char → List (List Char)
  | [] => [[]]
  | a :: rest =>
    match splitChar c rest with
    | [] => if a == c then [[], []] else [[a]]
    | h :: t => if a == c then [] :: h :: t else (a :: h) :: t

/-- Modelled from the spec: `contact_email` must be a syntactically valid
email address.  The source delegates this check to the schema library's
`EmailStr` type, which is outside this repository; we model it as: exactly
one `@`, a non-empty local part, and a domain of at least two non-empty
dot-separated labels. -/
def isValidEmail (s : String) : Bool :=
  match splitChar '@' s.toList with
  | [lp, dp] =>
    !lp.isEmpty && !dp.isEmpty &&
      (let ds := splitChar '.' dp
       decide (2 ≤ ds.length) && ds.all (fun d => !d.isEmpty))
  | _ => false

/-! ## Rounding -/

/-- Floor of a rational, computed on its normalised representation. -/
def qfloor (x : ℚ) : ℤ := x.num.ediv (x.den : ℤ)

/-- Round a rational to the nearest integer, ties to even — the rounding of
the host language's built-in `round`. -/
def roundHalfEven (x : ℚ) : ℤ :=
  let f := qfloor x
  let r := x - (f : ℚ)
  if r < 1 / 2 then f
  else if 1 / 2 < r then f + 1
  else if f % 2 = 0 then f else f + 1

/-- `round(x, 2)` of the source (main.py line 167): round to two decimal
places, ties to even. -/
def roundQ2 (x : ℚ) : ℚ := (roundHalfEven (x * 100) : ℚ) / 100

/-! ## Data model (schemas.py) -/

/-- `LicenseProduct` (schemas.py lines 45-55): a validated catalog entry.
Field defaults mirror the schema's defaults. -/
structure LicenseProduct where
  name : String
  sku : String
  vendor : String := "Saad"
  description : Option String := none
  price : ℚ
  duration_months : ℤ := 12
  tier : Option String := none
  features : List String := []
  terms_url : Option String := none
deriving DecidableEq

/-- A raw catalog document as held by the store.  `oid` is the internal
storage identifier (`_id`).  `price` is optional because raw documents need
not carry it: main.py line 153 defensively defaults a missing `price` to 0. -/
structure StoredProduct where
  oid : ℕ
  name : String
  sku : String
  vendor : String
  description : Option String
  price : Option ℚ
  duration_months : ℤ
  tier : Option String
  features : List String
  terms_url : Option String
deriving DecidableEq

/-- `OrderItem` (schemas.py lines 57-62): all five fields required,
`quantity ≥ 1`, `unit_price ≥ 0`, `subtotal ≥ 0`. -/
structure OrderItem where
  sku : String
  name : String
  quantity : ℤ
  unit_price : ℚ
  subtotal : ℚ
deriving DecidableEq

/-- `LicenseOrder` (schemas.py lines 64-74): the persisted order document. -/
structure LicenseOrder where
  company : Option String
  contact_name : String
  contact_email : String
  contact_phone : Option String
  items : List OrderItem
  total_amount : ℚ
  vendor : String
  status : String
  notes : Option String
deriving DecidableEq

/-- An order document as held by the store, with its internal identifier. -/
structure StoredOrder where
  oid : ℕ
  doc : LicenseOrder
deriving DecidableEq

/-- Errors surfaced to the client: `http s d` models a raised
`HTTPException(status_code=s, detail=d)`; `validation m` models a schema
`ValidationError`. -/
inductive ApiError where
  | http (status : ℕ) (detail : String)
  | validation (msg : String)
deriving DecidableEq

/-! ## The document store -/

/-- Modelled from the spec: a write issued to the document store by a
handler.  The handlers of this core only ever issue inserts; update and
delete are included so that their absence is expressible. -/
inductive Write where
  | insertProduct (p : StoredProduct)
  | insertOrder (o : StoredOrder)
  | updateProduct (sku : String) (p : StoredProduct)
  | deleteProduct (sku : String)
deriving DecidableEq

/-- Modelled from the spec: the state of the document store — the
`licenseproduct` and `licenseorder` collections plus a fresh-identifier
counter standing in for generated object ids. -/
structure DB where
  licenseproduct : List StoredProduct
  licenseorder : List StoredOrder
  nextId : ℕ
deriving DecidableEq

/-- Modelled from the spec: applying one write to the store. An insert
appends the document and consumes one fresh identifier. -/
def applyWrite (db : DB) : Write → DB
  | .insertProduct p =>
    { db with licenseproduct := db.licenseproduct ++ [p], nextId := db.nextId + 1 }
  | .insertOrder o =>
    { db with licenseorder := db.licenseorder ++ [o], nextId := db.nextId + 1 }
  | .updateProduct sku p =>
    { db with licenseproduct := db.licenseproduct.map (fun q => if q.sku == sku then p else q) }
  | .deleteProduct sku =>
    { db with licenseproduct := db.licenseproduct.filter (fun q => !(q.sku == sku)) }

/-- Modelled from the spec: applying a handler's writes in order. -/
def applyWrites (db : DB) (ws : List Write) : DB := ws.foldl applyWrite db

/-- Modelled from the spec: `find_one("licenseproduct", {"sku": sku})` —
the first catalog document with the given sku. -/
def findProd (db : DB) (sku : String) : Option StoredProduct :=
  db.licenseproduct.find? (fun p => p.sku == sku)

/-- The document inserted for a validated `LicenseProduct`
(`create_document` stores the model's fields under a fresh identifier). -/
def toStored (oid : ℕ) (p : LicenseProduct) : StoredProduct :=
  { oid := oid, name := p.name, sku := p.sku, vendor := p.vendor,
    description := p.description, price := some p.price,
    duration_months := p.duration_months, tier := p.tier,
    features := p.features, terms_url := p.terms_url }

/-! ## Generic helper -/

/-- Sequencing a fallible function over a list, failing on the first error —
the shape of every loop in the source that builds a result list. -/
def mapExcept {α β ε : Type} (f : α → Except ε β) : List α → Except ε (List β)
  | [] => .ok []
  | a :: as =>
    match f a with
    | .error e => .error e
    | .ok b =>
      match mapExcept f as with
      | .error e => .error e
      | .ok bs => .ok (b :: bs)

/-! ## Catalog endpoints (main.py lines 30-125) -/

/-- The three-field text search of main.py lines 39-43: case-insensitive
substring match against `name`, `description` and `sku`; a document with no
description fails that leg (a missing field matches no pattern). -/
def textMatch (s : String) (p : StoredProduct) : Bool :=
  containsCI p.name s ||
    (match p.description with
     | some d => containsCI d s
     | none => false) ||
    containsCI p.sku s

/-- Truthiness of an optional string parameter, as tested by
`if q:` / `if vendor:` in main.py lines 37 and 44: present and non-empty. -/
def truthy : Option String → Bool
  | none => false
  | some s => !(s == "")

/-- The filter main.py lines 36-45 builds for `get_documents`: the text
search (when `q` is truthy) ANDed with an exact vendor match (when `vendor`
is truthy). -/
def catalogFilter (q vendor : Option String) (p : StoredProduct) : Bool :=
  (if truthy q then textMatch (q.getD "") p else true) &&
  (if truthy vendor then p.vendor == vendor.getD "" else true)

/-- `LicenseProduct(**d)` after `d.pop("_id", None)` (main.py lines 50-51):
revalidation of a raw document into a response model, dropping the internal
identifier.  Fails when `price` is missing or any range check fails. -/
def toLicenseProduct (p : StoredProduct) : Except ApiError LicenseProduct :=
  match p.price with
  | none => .error (.validation "price field required")
  | some pr =>
    if 0 ≤ pr then
      if 1 ≤ p.duration_months ∧ p.duration_months ≤ 60 then
        .ok { name := p.name, sku := p.sku, vendor := p.vendor,
              description := p.description, price := pr,
              duration_months := p.duration_months, tier := p.tier,
              features := p.features, terms_url := p.terms_url }
      else .error (.validation "duration_months out of range")
    else .error (.validation "price must be nonnegative")

/-- `GET /api/licenses` (main.py lines 30-52): filter the catalog, strip the
internal identifier from each document and revalidate it. -/
def list_licenses (db : DB) (q vendor : Option String) :
    Except ApiError (List LicenseProduct) :=
  mapExcept toLicenseProduct (db.licenseproduct.filter (catalogFilter q vendor))

/-- `POST /api/licenses` (main.py lines 59-71): reject a duplicate sku with
a 400 "SKU already exists" and no write; otherwise insert and return the
generated identifier. -/
def create_license (db : DB) (product : LicenseProduct) :
    Except ApiError ℕ × List Write :=
  match findProd db product.sku with
  | some _ => (.error (.http 400 "SKU already exists"), [])
  | none => (.ok db.nextId, [.insertProduct (toStored db.nextId product)])

/-- First sample plan of the seed endpoint (main.py lines 85-95). -/
def sample1 : LicenseProduct :=
  { name := "Saad Basic", sku := "SAAD-BASIC-1Y", vendor := "Saad",
    description := some "Entry plan ideal for small teams", price := 99,
    duration_months := 12, tier := some "Basic",
    features := ["Up to 10 users", "Email support", "Core features"],
    terms_url := some "https://saad.example.com/terms" }

/-- Second sample plan of the seed endpoint (main.py lines 96-106). -/
def sample2 : LicenseProduct :=
  { name := "Saad Pro", sku := "SAAD-PRO-1Y", vendor := "Saad",
    description := some "Professional plan for growing companies", price := 249,
    duration_months := 12, tier := some "Pro",
    features := ["Up to 50 users", "Priority support", "Advanced analytics"],
    terms_url := some "https://saad.example.com/terms" }

/-- Third sample plan of the seed endpoint (main.py lines 107-117). -/
def sample3 : LicenseProduct :=
  { name := "Saad Enterprise", sku := "SAAD-ENT-1Y", vendor := "Saad",
    description := some "Enterprise-grade with SSO and dedicated support", price := 599,
    duration_months := 12, tier := some "Enterprise",
    features := ["Unlimited users", "SSO/SAML", "Dedicated CSM"],
    terms_url := some "https://saad.example.com/terms" }

/-- Result of the seed endpoint: either the catalog already had `count`
items, or `inserted` samples were inserted. -/
inductive SeedResp where
  | already (count : ℕ)
  | seeded (inserted : ℕ)
deriving DecidableEq

/-- `POST /api/licenses/seed` (main.py lines 74-125): a no-op reporting the
existing count when the catalog is non-empty; otherwise insert the three
fixed sample plans. -/
def seed_licenses (db : DB) : SeedResp × List Write :=
  if db.licenseproduct.length > 0 then
    (.already db.licenseproduct.length, [])
  else
    (.seeded 3,
     [.insertProduct (toStored db.nextId sample1),
      .insertProduct (toStored (db.nextId + 1) sample2),
      .insertProduct (toStored (db.nextId + 2) sample3)])

/-! ## Order endpoint (main.py lines 132-173) -/

/-- The request body of `POST /api/orders` after schema validation
(main.py lines 132-138).  Its items are full `OrderItem`s: the request
schema reuses the persisted item schema, so clients must supply `name`,
`unit_price` and `subtotal` even though the handler ignores them. -/
structure CreateOrder where
  company : Option String
  contact_name : String
  contact_email : String
  contact_phone : Option String
  items : List OrderItem
  notes : Option String
deriving DecidableEq

/-- A raw request item before schema validation: each field present or
absent in the request body. -/
structure RawOrderItem where
  sku : Option String
  name : Option String
  quantity : Option ℤ
  unit_price : Option ℚ
  subtotal : Option ℚ
deriving DecidableEq

/-- A raw `POST /api/orders` body before schema validation. -/
structure RawCreateOrder where
  company : Option String
  contact_name : Option String
  contact_email : Option String
  contact_phone : Option String
  items : Option (List RawOrderItem)
  notes : Option String
deriving DecidableEq

/-- Construction of an `OrderItem` with the schema's checks
(schemas.py lines 57-62): `quantity ≥ 1`, `unit_price ≥ 0`, `subtotal ≥ 0`. -/
def mkOrderItem (sku name : String) (quantity : ℤ) (unit_price subtotal : ℚ) :
    Except ApiError OrderItem :=
  if 1 ≤ quantity then
    if 0 ≤ unit_price then
      if 0 ≤ subtotal then
        .ok { sku := sku, name := name, quantity := quantity,
              unit_price := unit_price, subtotal := subtotal }
      else .error (.validation "subtotal must be nonnegative")
    else .error (.validation "unit_price must be nonnegative")
  else .error (.validation "quantity must be at least 1")

/-- Schema validation of one request item: all five fields of `OrderItem`
are required, then the range checks of `mkOrderItem` apply. -/
def validateOrderItem (r : RawOrderItem) : Except ApiError OrderItem :=
  match r.sku, r.name, r.quantity, r.unit_price, r.subtotal with
  | some sku, some name, some q, some u, some st => mkOrderItem sku name q u st
  | _, _, _, _, _ => .error (.validation "field required")

/-- Schema validation of the `CreateOrder` body (main.py lines 132-138):
`contact_name`, `contact_email` and `items` are required; `contact_email`
is a plain string here (no email-format check at this layer); each item is
validated by the `OrderItem` schema.  An empty items list is accepted. -/
def validateCreateOrder (r : RawCreateOrder) : Except ApiError CreateOrder :=
  match r.contact_name, r.contact_email, r.items with
  | some cn, some ce, some its =>
    match mapExcept validateOrderItem its with
    | .error e => .error e
    | .ok items =>
      .ok { company := r.company, contact_name := cn, contact_email := ce,
            contact_phone := r.contact_phone, items := items, notes := r.notes }
  | _, _, _ => .error (.validation "field required")

/-- The loop body of main.py lines 149-159 over the whole items list: look
each sku up in the catalog (404 on a miss), reprice the item from the
catalog document (a missing `price` field defaults to 0), rebuild the item
through the `OrderItem` schema, and accumulate the running total. -/
def priceItems (db : DB) : List OrderItem → Except ApiError (List OrderItem × ℚ)
  | [] => .ok ([], 0)
  | it :: rest =>
    match findProd db it.sku with
    | none => .error (.http 404 ("SKU not found: " ++ it.sku))
    | some prod =>
      let unit_price : ℚ := prod.price.getD 0
      let subtotal : ℚ := unit_price * (it.quantity : ℚ)
      match mkOrderItem it.sku prod.name it.quantity unit_price subtotal with
      | .error e => .error e
      | .ok v =>
        match priceItems db rest with
        | .error e => .error e
        | .ok (vs, t) => .ok (v :: vs, subtotal + t)

/-- Construction of the `LicenseOrder` document (main.py lines 161-170)
with the schema's checks (schemas.py lines 64-74): `contact_email` must be
a valid email (`EmailStr`), `total_amount ≥ 0`; `vendor` defaults to
"Saad" and `status` is set to "pending". -/
def mkLicenseOrder (o : CreateOrder) (items : List OrderItem) (total_amount : ℚ) :
    Except ApiError LicenseOrder :=
  if isValidEmail o.contact_email then
    if 0 ≤ total_amount then
      .ok { company := o.company, contact_name := o.contact_name,
            contact_email := o.contact_email, contact_phone := o.contact_phone,
            items := items, total_amount := total_amount,
            vendor := "Saad", status := "pending", notes := o.notes }
    else .error (.validation "total_amount must be nonnegative")
  else .error (.validation "contact_email is not a valid email address")

/-- The response of a successful `POST /api/orders`. -/
structure OrderResp where
  order_id : ℕ
  total : ℚ
  status : String
deriving DecidableEq

/-- The handler body of `POST /api/orders` (main.py lines 141-173), over an
already-validated request: reprice the items, build the order document
(rounding the total to two decimals), and insert exactly one document. -/
def place_order (db : DB) (order : CreateOrder) :
    Except ApiError OrderResp × List Write :=
  match priceItems db order.items with
  | .error e => (.error e, [])
  | .ok (validated_items, total) =>
    match mkLicenseOrder order validated_items (roundQ2 total) with
    | .error e => (.error e, [])
    | .ok doc =>
      (.ok { order_id := db.nextId, total := doc.total_amount, status := doc.status },
       [.insertOrder { oid := db.nextId, doc := doc }])

/-- The full `POST /api/orders` endpoint: schema validation of the raw body
(before the handler body runs), then the handler. -/
def postOrder (db : DB) (raw : RawCreateOrder) :
    Except ApiError OrderResp × List Write :=
  match validateCreateOrder raw with
  | .error e => (.error e, [])
  | .ok o => place_order db o

/-! ## Spec-side notions -/

/-- The server-side repricing of one request item, as a pure function: item
`i` of the persisted order is `priced db` of item `i` of the request. -/
def priced (db : DB) (it : OrderItem) : OrderItem :=
  match findProd db it.sku with
  | some p =>
    { sku := it.sku, name := p.name, quantity := it.quantity,
      unit_price := p.price.getD 0,
      subtotal := p.price.getD 0 * (it.quantity : ℚ) }
  | none => it

/-- The response document for a stored catalog entry with its internal
identifier stripped, as the spec describes the search result. -/
def stripDoc (p : StoredProduct) : LicenseProduct :=
  { name := p.name, sku := p.sku, vendor := p.vendor,
    description := p.description, price := p.price.getD 0,
    duration_months := p.duration_months, tier := p.tier,
    features := p.features, terms_url := p.terms_url }

/-- A stored catalog document that passes the `LicenseProduct` schema. -/
def SchemaValid (p : StoredProduct) : Prop :=
  p.price.isSome = true ∧ 0 ≤ p.price.getD 0 ∧
    1 ≤ p.duration_months ∧ p.duration_months ≤ 60

/-- Every catalog document carries a nonnegative price (0 when absent) —
the data-model invariant for entries written through this service. -/
def NonnegPrices (db : DB) : Prop :=
  ∀ p ∈ db.licenseproduct, 0 ≤ p.price.getD 0

/-- Pairwise sku uniqueness across the catalog. -/
def UniqueSkus (l : List StoredProduct) : Prop :=
  l.Pairwise (fun a b => a.sku ≠ b.sku)

/-- A sequence of sequential create-product requests, each applied to the
store left by the previous one (failed creates write nothing). -/
def runCreates (db : DB) : List LicenseProduct → DB
  | [] => db
  | p :: ps => runCreates (applyWrites db (create_license db p).2) ps

/-! ## Helper lemmas -/

theorem mapExcept_ok_of_all {α β ε : Type} (f : α → Except ε β) (g : α → β) :
    ∀ l : List α, (∀ a ∈ l, f a = .ok (g a)) → mapExcept f l = .ok (l.map g) := by
  intro l
  induction l with
  | nil => intro _; rfl
  | cons a as ih =>
    intro h
    have ha := h a (List.mem_cons_self a as)
    have hs := ih (fun x hx => h x (List.mem_cons_of_mem a hx))
    simp [mapExcept, ha, hs]

theorem mapExcept_ok_forall {α β ε : Type} {f : α → Except ε β} :
    ∀ {l : List α} {bs : List β}, mapExcept f l = .ok bs →
      ∀ b ∈ bs, ∃ a ∈ l, f a = .ok b := by
  intro l
  induction l with
  | nil =>
    intro bs h b hb
    simp only [mapExcept] at h
    cases h
    cases hb
  | cons a as ih =>
    intro bs h b hb
    simp only [mapExcept] at h
    cases hfa : f a with
    | error e => rw [hfa] at h; cases h
    | ok b0 =>
      rw [hfa] at h
      cases hms : mapExcept f as with
      | error e => rw [hms] at h; cases h
      | ok bs0 =>
        rw [hms] at h
        cases h
        rcases List.mem_cons.mp hb with hb0 | hbs
        · exact ⟨a, List.mem_cons_self a as, by rw [hfa, hb0]⟩
        · obtain ⟨x, hx, hfx⟩ := ih hms b hbs
          exact ⟨x, List.mem_cons_of_mem a hx, hfx⟩

theorem mkOrderItem_ok {s n : String} {q : ℤ} {u st : ℚ} {v : OrderItem}
    (h : mkOrderItem s n q u st = .ok v) :
    v = ⟨s, n, q, u, st⟩ ∧ 1 ≤ q ∧ 0 ≤ u ∧ 0 ≤ st := by
  unfold mkOrderItem at h
  split_ifs at h with h1 h2 h3
  cases h
  exact ⟨rfl, h1, h2, h3⟩

theorem mkOrderItem_eq_ok {s n : String} {q : ℤ} {u st : ℚ}
    (h1 : 1 ≤ q) (h2 : 0 ≤ u) (h3 : 0 ≤ st) :
    mkOrderItem s n q u st = .ok ⟨s, n, q, u, st⟩ := by
  unfold mkOrderItem
  rw [if_pos h1, if_pos h2, if_pos h3]

/-- Inversion of a successful pricing loop: the validated items are the
repriced request items, every sku was found, and the accumulated total is
the sum of the validated subtotals. -/
theorem priceItems_ok {db : DB} :
    ∀ {l vs : List OrderItem} {t : ℚ},
      priceItems db l = .ok (vs, t) →
      vs = l.map (priced db) ∧ (∀ it ∈ l, (findProd db it.sku).isSome) ∧
        t = (vs.map (fun v => v.subtotal)).sum := by
  intro l
  induction l with
  | nil =>
    intro vs t h
    simp only [priceItems] at h
    cases h
    simp
  | cons it rest ih =>
    intro vs t h
    simp only [priceItems] at h
    cases hf : findProd db it.sku with
    | none => rw [hf] at h; cases h
    | some p =>
      rw [hf] at h
      simp only [] at h
      cases hm : mkOrderItem it.sku p.name it.quantity (p.price.getD 0)
          (p.price.getD 0 * (it.quantity : ℚ)) with
      | error e => rw [hm] at h; cases h
      | ok v =>
        rw [hm] at h
        cases hr : priceItems db rest with
        | error e => rw [hr] at h; cases h
        | ok pr =>
          obtain ⟨vs', t'⟩ := pr
          rw [hr] at h
          cases h
          obtain ⟨hvs', hsome', ht'⟩ := ih hr
          obtain ⟨hv, _, _, _⟩ := mkOrderItem_ok hm
          constructor
          · simp [List.map_cons, ← hvs', hv, priced, hf]
          constructor
          · intro x hx
            rcases List.mem_cons.mp hx with h0 | h1
            · rw [h0, hf]; rfl
            · exact hsome' x h1
          · simp [hv, ht']

/-- The pricing loop succeeds and produces the repriced items whenever every
requested sku resolves, quantities are at least 1 and catalog prices are
nonnegative. -/
theorem priceItems_eq_ok {db : DB} (hnn : NonnegPrices db) :
    ∀ {l : List OrderItem},
      (∀ it ∈ l, 1 ≤ it.quantity) →
      (∀ it ∈ l, (findProd db it.sku).isSome) →
      priceItems db l =
        .ok (l.map (priced db), ((l.map (priced db)).map (fun v => v.subtotal)).sum) := by
  intro l
  induction l with
  | nil => intro _ _; rfl
  | cons it rest ih =>
    intro hq hs
    obtain ⟨p, hp⟩ := Option.isSome_iff_exists.mp (hs it (List.mem_cons_self it rest))
    have hmem : p ∈ db.licenseproduct := List.mem_of_find?_eq_some hp
    have hu : 0 ≤ p.price.getD 0 := hnn p hmem
    have hq1 : 1 ≤ it.quantity := hq it (List.mem_cons_self it rest)
    have hqc : (0 : ℚ) ≤ (it.quantity : ℚ) := by exact_mod_cast (by linarith : (0 : ℤ) ≤ it.quantity)
    have hst : 0 ≤ p.price.getD 0 * (it.quantity : ℚ) := mul_nonneg hu hqc
    have hrest := ih (fun x hx => hq x (List.mem_cons_of_mem it hx))
      (fun x hx => hs x (List.mem_cons_of_mem it hx))
    simp only [priceItems, hp, mkOrderItem_eq_ok hq1 hu hst, hrest]
    simp [priced, hp]

/-- When the request contains a missing sku (and everything before it is
orderable), the pricing loop fails with a 404 naming the first missing sku,
in submitted order. -/
theorem priceItems_first_missing {db : DB} (hnn : NonnegPrices db) :
    ∀ {l : List OrderItem} {it₀ : OrderItem},
      (∀ it ∈ l, 1 ≤ it.quantity) →
      l.find? (fun it => (findProd db it.sku).isNone) = some it₀ →
      priceItems db l = .error (.http 404 ("SKU not found: " ++ it₀.sku)) := by
  intro l
  induction l with
  | nil => intro it₀ _ h; cases h
  | cons it rest ih =>
    intro it₀ hq hfind
    cases hf : findProd db it.sku with
    | none =>
      have : it₀ = it := by
        rw [List.find?_cons_of_pos _ (by simp [hf])] at hfind
        cases hfind
        rfl
      subst this
      simp [priceItems, hf]
    | some p =>
      rw [List.find?_cons_of_neg _ (by simp [hf])] at hfind
      have hmem : p ∈ db.licenseproduct := List.mem_of_find?_eq_some hf
      have hu : 0 ≤ p.price.getD 0 := hnn p hmem
      have hq1 : 1 ≤ it.quantity := hq it (List.mem_cons_self it rest)
      have hqc : (0 : ℚ) ≤ (it.quantity : ℚ) := by exact_mod_cast (by linarith : (0 : ℤ) ≤ it.quantity)
      have hst : 0 ≤ p.price.getD 0 * (it.quantity : ℚ) := mul_nonneg hu hqc
      have hrest := ih (fun x hx => hq x (List.mem_cons_of_mem it hx)) hfind
      simp only [priceItems, hf, mkOrderItem_eq_ok hq1 hu hst, hrest]

theorem qfloor_nonneg {x : ℚ} (h : 0 ≤ x) : 0 ≤ qfloor x :=
  Int.ediv_nonneg (Rat.num_nonneg.mpr h) (by positivity)

theorem roundHalfEven_nonneg (x : ℚ) (h : 0 ≤ x) : 0 ≤ roundHalfEven x := by
  have hf := qfloor_nonneg h
  simp only [roundHalfEven]
  split_ifs <;> omega

theorem roundQ2_nonneg {x : ℚ} (h : 0 ≤ x) : 0 ≤ roundQ2 x := by
  unfold roundQ2
  have h2 := roundHalfEven_nonneg (x * 100) (by positivity)
  exact div_nonneg (by exact_mod_cast h2) (by norm_num)

theorem roundQ2_zero : roundQ2 0 = 0 := by
  norm_num [roundQ2, roundHalfEven, qfloor]

/-- The pricing loop reads only the `sku` and `quantity` of each request
item: requests agreeing on those are priced identically. -/
theorem priceItems_congr {db : DB} :
    ∀ {l l' : List OrderItem},
      l.map (fun it => (it.sku, it.quantity)) = l'.map (fun it => (it.sku, it.quantity)) →
      priceItems db l = priceItems db l' := by
  intro l
  induction l with
  | nil =>
    intro l' h
    cases l' with
    | nil => rfl
    | cons b bs => simp at h
  | cons a as ih =>
    intro l' h
    cases l' with
    | nil => simp at h
    | cons b bs =>
      simp only [List.map_cons, List.cons.injEq, Prod.mk.injEq] at h
      obtain ⟨⟨hsku, hq⟩, hrest⟩ := h
      simp only [priceItems, hsku, hq, ih hrest]

theorem validateOrderItem_ok {r : RawOrderItem} {v : OrderItem}
    (h : validateOrderItem r = .ok v) :
    r.sku = some v.sku ∧ r.name = some v.name ∧ r.quantity = some v.quantity ∧
      r.unit_price = some v.unit_price ∧ r.subtotal = some v.subtotal ∧
      1 ≤ v.quantity ∧ 0 ≤ v.unit_price ∧ 0 ≤ v.subtotal := by
  unfold validateOrderItem at h
  split at h
  · next sku name q u st hs hn hq hu ht =>
    obtain ⟨hv, h1, h2, h3⟩ := mkOrderItem_ok h
    subst hv
    exact ⟨hs, hn, hq, hu, ht, h1, h2, h3⟩
  · cases h

theorem validateCreateOrder_ok {raw : RawCreateOrder} {o : CreateOrder}
    (h : validateCreateOrder raw = .ok o) :
    raw.contact_name = some o.contact_name ∧
      raw.contact_email = some o.contact_email ∧
      o.company = raw.company ∧ o.contact_phone = raw.contact_phone ∧
      o.notes = raw.notes ∧
      (∃ its, raw.items = some its ∧ mapExcept validateOrderItem its = .ok o.items) ∧
      (∀ it ∈ o.items, 1 ≤ it.quantity) := by
  unfold validateCreateOrder at h
  split at h
  · next cn ce its hcn hce hits =>
    cases hm : mapExcept validateOrderItem its with
    | error e => rw [hm] at h; cases h
    | ok items =>
      rw [hm] at h
      cases h
      refine ⟨hcn, hce, rfl, rfl, rfl, ⟨its, hits, hm⟩, ?_⟩
      intro it hit
      obtain ⟨r, _, hr⟩ := mapExcept_ok_forall hm it hit
      exact (validateOrderItem_ok hr).2.2.2.2.2.1
  · cases h

theorem mkLicenseOrder_ok {o : CreateOrder} {items : List OrderItem} {ta : ℚ}
    {doc : LicenseOrder} (h : mkLicenseOrder o items ta = .ok doc) :
    doc = ⟨o.company, o.contact_name, o.contact_email, o.contact_phone,
           items, ta, "Saad", "pending", o.notes⟩ ∧
      isValidEmail o.contact_email = true ∧ 0 ≤ ta := by
  unfold mkLicenseOrder at h
  split_ifs at h with h1 h2
  cases h
  exact ⟨rfl, h1, h2⟩

theorem mkLicenseOrder_eq_ok {o : CreateOrder} {items : List OrderItem} {ta : ℚ}
    (h1 : isValidEmail o.contact_email = true) (h2 : 0 ≤ ta) :
    mkLicenseOrder o items ta =
      .ok ⟨o.company, o.contact_name, o.contact_email, o.contact_phone,
           items, ta, "Saad", "pending", o.notes⟩ := by
  unfold mkLicenseOrder
  rw [if_pos h1, if_pos h2]

theorem mkLicenseOrder_invalid_email {o : CreateOrder} {items : List OrderItem}
    {ta : ℚ} (h : isValidEmail o.contact_email = false) :
    mkLicenseOrder o items ta =
      .error (.validation "contact_email is not a valid email address") := by
  unfold mkLicenseOrder
  rw [if_neg (by simp [h])]

theorem priced_subtotal_nonneg {db : DB} (hnn : NonnegPrices db) {it : OrderItem}
    (hq : 1 ≤ it.quantity) (hs : (findProd db it.sku).isSome = true) :
    0 ≤ (priced db it).subtotal := by
  obtain ⟨p, hp⟩ := Option.isSome_iff_exists.mp hs
  have hu : 0 ≤ p.price.getD 0 := hnn p (List.mem_of_find?_eq_some hp)
  have hqc : (0 : ℚ) ≤ (it.quantity : ℚ) := by
    exact_mod_cast (by linarith : (0 : ℤ) ≤ it.quantity)
  simp only [priced, hp]
  exact mul_nonneg hu hqc

/-- Inversion of a successful order placement: the single inserted document
and its relation to the request and the catalog. -/
theorem place_order_ok {db : DB} {o : CreateOrder} {resp : OrderResp} {ws : List Write}
    (h : place_order db o = (.ok resp, ws)) :
    ∃ doc : LicenseOrder,
      ws = [.insertOrder ⟨db.nextId, doc⟩] ∧
      doc.items = o.items.map (priced db) ∧
      (∀ it ∈ o.items, (findProd db it.sku).isSome) ∧
      doc.total_amount = roundQ2 ((doc.items.map (fun v => v.subtotal)).sum) ∧
      doc.status = "pending" ∧ doc.vendor = "Saad" ∧
      resp = ⟨db.nextId, doc.total_amount, doc.status⟩ ∧
      doc.company = o.company ∧ doc.contact_name = o.contact_name ∧
      doc.contact_email = o.contact_email ∧ doc.contact_phone = o.contact_phone ∧
      doc.notes = o.notes := by
  unfold place_order at h
  split at h
  · simp at h
  next vs t hp =>
    split at h
    · simp at h
    next doc hm =>
      injection h with h1 h2
      injection h1 with h1
      subst h2
      subst h1
      obtain ⟨hvs, hsome, ht⟩ := priceItems_ok hp
      obtain ⟨hdoc, _, _⟩ := mkLicenseOrder_ok hm
      subst hdoc
      subst hvs
      exact ⟨_, rfl, by simp, hsome, by simp [ht], rfl, rfl, rfl, rfl, rfl, rfl, rfl, rfl⟩

/-- Successful order placement, constructively: when every sku resolves,
quantities are valid, catalog prices are nonnegative and the email is
well-formed, the handler succeeds and inserts exactly the repriced order. -/
theorem place_order_eq_ok {db : DB} {o : CreateOrder}
    (hnn : NonnegPrices db)
    (hq : ∀ it ∈ o.items, 1 ≤ it.quantity)
    (hs : ∀ it ∈ o.items, (findProd db it.sku).isSome)
    (he : isValidEmail o.contact_email = true) :
    place_order db o =
      (.ok ⟨db.nextId,
            roundQ2 (((o.items.map (priced db)).map (fun v => v.subtotal)).sum),
            "pending"⟩,
       [.insertOrder ⟨db.nextId,
          ⟨o.company, o.contact_name, o.contact_email, o.contact_phone,
           o.items.map (priced db),
           roundQ2 (((o.items.map (priced db)).map (fun v => v.subtotal)).sum),
           "Saad", "pending", o.notes⟩⟩]) := by
  have hsum : 0 ≤ ((o.items.map (priced db)).map (fun v => v.subtotal)).sum := by
    apply List.sum_nonneg
    intro x hx
    obtain ⟨v, hv, hvx⟩ := List.mem_map.mp hx
    obtain ⟨it, hit, hvit⟩ := List.mem_map.mp hv
    subst hvit
    subst hvx
    exact priced_subtotal_nonneg hnn (hq it hit) (hs it hit)
  simp only [place_order, priceItems_eq_ok hnn hq hs,
    mkLicenseOrder_eq_ok he (roundQ2_nonneg hsum)]

/-- `mkLicenseOrder` reads only the contact fields of the request. -/
theorem mkLicenseOrder_congr {o o' : CreateOrder} (h1 : o.company = o'.company)
    (h2 : o.contact_name = o'.contact_name) (h3 : o.contact_email = o'.contact_email)
    (h4 : o.contact_phone = o'.contact_phone) (h5 : o.notes = o'.notes)
    (items : List OrderItem) (ta : ℚ) :
    mkLicenseOrder o items ta = mkLicenseOrder o' items ta := by
  unfold mkLicenseOrder
  rw [h1, h2, h3, h4, h5]

theorem toLicenseProduct_eq_ok {p : StoredProduct} (h : SchemaValid p) :
    toLicenseProduct p = .ok (stripDoc p) := by
  obtain ⟨hsome, hpr, hd1, hd2⟩ := h
  obtain ⟨pr, hp⟩ := Option.isSome_iff_exists.mp hsome
  rw [hp] at hpr
  unfold toLicenseProduct stripDoc
  simp only [hp, Option.getD_some]
  rw [if_pos (by simpa using hpr), if_pos ⟨hd1, hd2⟩]

theorem catalogFilter_true_iff (q v : Option String) (p : StoredProduct) :
    catalogFilter q v p = true ↔
      ((truthy q = true → textMatch (q.getD "") p = true) ∧
       (truthy v = true → p.vendor = v.getD "")) := by
  unfold catalogFilter
  cases hq : truthy q <;> cases hv : truthy v <;> simp [hq, hv]

/-! ## Concrete fixtures used by witnesses and counterexamples -/

/-- A concrete stored catalog document (the seeded "Saad Pro" plan). -/
def exProd : StoredProduct :=
  { oid := 0, name := "Saad Pro", sku := "SAAD-PRO-1Y", vendor := "Saad",
    description := some "Professional plan for growing companies",
    price := some 249, duration_months := 12, tier := some "Pro",
    features := [], terms_url := none }

/-- A concrete store holding one catalog entry and no orders. -/
def exDb : DB := { licenseproduct := [exProd], licenseorder := [], nextId := 7 }

/-- A request item for the entry of `exDb` carrying bogus client-supplied
`name`, `unit_price` and `subtotal`. -/
def exReqItem : OrderItem :=
  { sku := "SAAD-PRO-1Y", name := "bogus", quantity := 2, unit_price := 1, subtotal := 5 }

/-- A validated order request against `exDb`. -/
def exOrder : CreateOrder :=
  { company := none, contact_name := "Jane Doe", contact_email := "jane@example.com",
    contact_phone := none, items := [exReqItem], notes := none }

/-- The line item the handler persists for `exReqItem`: repriced from the
catalog, ignoring the client-supplied values. -/
def exSoldItem : OrderItem :=
  { sku := "SAAD-PRO-1Y", name := "Saad Pro", quantity := 2, unit_price := 249, subtotal := 498 }

/-- The order document persisted for `exOrder` against `exDb`. -/
def exDoc : LicenseOrder :=
  { company := none, contact_name := "Jane Doe", contact_email := "jane@example.com",
    contact_phone := none, items := [exSoldItem], total_amount := 498,
    vendor := "Saad", status := "pending", notes := none }

/-- Evaluation of the order endpoint on the concrete fixture: the order is
repriced from the catalog and a single document is inserted. -/
theorem exOrder_run :
    place_order exDb exOrder =
      (.ok { order_id := 7, total := 498, status := "pending" },
       [.insertOrder { oid := 7, doc := exDoc }]) := by
  norm_num [place_order, priceItems, findProd, exDb, exProd, exOrder, exReqItem,
    mkOrderItem, mkLicenseOrder, roundQ2, roundHalfEven, qfloor, exDoc, exSoldItem,
    (show isValidEmail "jane@example.com" = true by decide)]

/-! ## The claims -/

/-- C1: for every successful place-order request, each persisted item's
`unit_price` and `name` equal the matching catalog entry's price and name at
order time, and the result (response and persisted order) is independent of
the client-supplied `name`, `unit_price` and `subtotal` request fields. -/
theorem place_order_server_side_pricing :
    (∀ (db : DB) (o : CreateOrder) (resp : OrderResp) (so : StoredOrder),
        place_order db o = (.ok resp, [.insertOrder so]) →
        ∀ v ∈ so.doc.items, ∃ p, findProd db v.sku = some p ∧
          v.unit_price = p.price.getD 0 ∧ v.name = p.name) ∧
    (∀ (db : DB) (o o' : CreateOrder),
        o.company = o'.company → o.contact_name = o'.contact_name →
        o.contact_email = o'.contact_email → o.contact_phone = o'.contact_phone →
        o.notes = o'.notes →
        o.items.map (fun it => (it.sku, it.quantity)) =
          o'.items.map (fun it => (it.sku, it.quantity)) →
        place_order db o = place_order db o') := by
  constructor
  · intro db o resp so h v hv
    obtain ⟨doc, hws, hitems, hsome, -⟩ := place_order_ok h
    have hso : so.doc = doc := by
      injection hws with hws1 _
      injection hws1 with hws2
      rw [hws2]
    rw [hso, hitems] at hv
    obtain ⟨it, hit, hvit⟩ := List.mem_map.mp hv
    obtain ⟨p, hp⟩ := Option.isSome_iff_exists.mp (hsome it hit)
    refine ⟨p, ?_, ?_, ?_⟩ <;> simp [← hvit, priced, hp]
  · intro db o o' h1 h2 h3 h4 h5 h6
    simp only [place_order, priceItems_congr h6, mkLicenseOrder_congr h1 h2 h3 h4 h5]

/-- Witness for C1 at the concrete fixture: the client sent `unit_price = 1`,
`subtotal = 5` and name "bogus", yet the persisted item carries the
catalog's price 249 and name "Saad Pro". -/
theorem place_order_server_side_pricing_witness :
    ∃ p, findProd exDb exSoldItem.sku = some p ∧
      exSoldItem.unit_price = p.price.getD 0 ∧ exSoldItem.name = p.name := by
  have h := place_order_server_side_pricing.1 exDb exOrder
    { order_id := 7, total := 498, status := "pending" } { oid := 7, doc := exDoc }
    exOrder_run exSoldItem (by simp [exDoc])
  exact h

/-- C2: for every successful place-order request, each persisted item's
`subtotal` equals `unit_price * quantity`, and the persisted `total_amount`
(also returned as `total`) is the sum of the item subtotals rounded to two
decimal places. -/
theorem place_order_total_amount :
    ∀ (db : DB) (o : CreateOrder) (resp : OrderResp) (so : StoredOrder),
      place_order db o = (.ok resp, [.insertOrder so]) →
      (∀ v ∈ so.doc.items, v.subtotal = v.unit_price * (v.quantity : ℚ)) ∧
      so.doc.total_amount = roundQ2 ((so.doc.items.map (fun v => v.subtotal)).sum) ∧
      resp.total = so.doc.total_amount := by
  intro db o resp so h
  obtain ⟨doc, hws, hitems, hsome, htot, hstat, hvend, hresp, -⟩ := place_order_ok h
  have hso : so.doc = doc := by
    injection hws with hws1 _
    injection hws1 with hws2
    rw [hws2]
  subst hso
  refine ⟨?_, by rw [htot], by rw [hresp]⟩
  intro v hv
  rw [hitems] at hv
  obtain ⟨it, hit, hvit⟩ := List.mem_map.mp hv
  obtain ⟨p, hp⟩ := Option.isSome_iff_exists.mp (hsome it hit)
  simp [← hvit, priced, hp]

/-- Witness for C2 at the concrete fixture: 2 × 249 = 498 is both the
persisted item subtotal and the rounded order total. -/
theorem place_order_total_amount_witness :
    exDoc.total_amount = roundQ2 ((exDoc.items.map (fun v => v.subtotal)).sum) ∧
      exSoldItem.subtotal = exSoldItem.unit_price * (exSoldItem.quantity : ℚ) := by
  have h := place_order_total_amount exDb exOrder
    { order_id := 7, total := 498, status := "pending" } { oid := 7, doc := exDoc }
    exOrder_run
  exact ⟨h.2.1, h.1 exSoldItem (by simp [exDoc])⟩

/-- The raw request body that validates to `exOrder`. -/
def exRaw : RawCreateOrder :=
  { company := none, contact_name := some "Jane Doe", contact_email := some "jane@example.com",
    contact_phone := none,
    items := some [{ sku := some "SAAD-PRO-1Y", name := some "bogus", quantity := some 2,
                     unit_price := some 1, subtotal := some 5 }],
    notes := none }

theorem exRaw_validates : validateCreateOrder exRaw = .ok exOrder := by
  norm_num [validateCreateOrder, exRaw, mapExcept, validateOrderItem, mkOrderItem,
    exOrder, exReqItem]

/-- C9: ordering issues exactly one insert (the order document) on success and
no writes on failure, and never updates or deletes catalog documents: the
catalog collection is unchanged by the order endpoint. -/
theorem place_order_write_effects :
    ∀ (db : DB) (raw : RawCreateOrder),
      ((∃ e, (postOrder db raw).1 = .error e) → (postOrder db raw).2 = []) ∧
      (∀ resp, (postOrder db raw).1 = .ok resp →
        ∃ so, (postOrder db raw).2 = [.insertOrder so]) ∧
      (applyWrites db (postOrder db raw).2).licenseproduct = db.licenseproduct := by
  intro db raw
  have hcases : (∃ e, postOrder db raw = (.error e, [])) ∨
      ∃ resp so, postOrder db raw = (.ok resp, [.insertOrder so]) := by
    cases hv : validateCreateOrder raw with
    | error e => exact .inl ⟨e, by simp only [postOrder, hv]⟩
    | ok o =>
      cases hp : priceItems db o.items with
      | error e => exact .inl ⟨e, by simp only [postOrder, hv, place_order, hp]⟩
      | ok pr =>
        obtain ⟨vs, t⟩ := pr
        cases hm : mkLicenseOrder o vs (roundQ2 t) with
        | error e => exact .inl ⟨e, by simp only [postOrder, hv, place_order, hp, hm]⟩
        | ok doc =>
          exact .inr ⟨{ order_id := db.nextId, total := doc.total_amount, status := doc.status },
            { oid := db.nextId, doc := doc }, by simp only [postOrder, hv, place_order, hp, hm]⟩
  rcases hcases with ⟨e, he⟩ | ⟨resp, so, hok⟩
  · rw [he]
    refine ⟨fun _ => rfl, ?_, rfl⟩
    intro r hr
    cases hr
  · rw [hok]
    refine ⟨?_, fun r _ => ⟨so, rfl⟩, ?_⟩
    · rintro ⟨e', he'⟩
      cases he'
    · simp [applyWrites, applyWrite]

/-- Witness for C9: on the concrete fixture the endpoint's write list is a
single order insert. -/
theorem place_order_write_effects_witness :
    ∃ so, (postOrder exDb exRaw).2 = [.insertOrder so] := by
  have hpost : postOrder exDb exRaw =
      (.ok { order_id := 7, total := 498, status := "pending" },
       [.insertOrder { oid := 7, doc := exDoc }]) := by
    unfold postOrder
    rw [exRaw_validates]
    exact exOrder_run
  exact (place_order_write_effects exDb exRaw).2.1
    { order_id := 7, total := 498, status := "pending" } (by rw [hpost])

/-- C3: a place-order request referencing at least one sku with no catalog
entry fails with a 404 whose message names the first missing sku in
submitted order, and performs no writes (no order document is created). -/
theorem place_order_missing_sku_404 :
    ∀ (db : DB) (raw : RawCreateOrder) (o : CreateOrder) (it₀ : OrderItem),
      validateCreateOrder raw = .ok o →
      NonnegPrices db →
      o.items.find? (fun it => (findProd db it.sku).isNone) = some it₀ →
      postOrder db raw = (.error (.http 404 ("SKU not found: " ++ it₀.sku)), []) := by
  intro db raw o it₀ hv hnn hfind
  have hq := (validateCreateOrder_ok hv).2.2.2.2.2.2
  have hpe := priceItems_first_missing hnn hq hfind
  simp only [postOrder, hv, place_order, hpe]

/-- The raw order request naming the unknown sku "NOPE". -/
def cexRawMissing : RawCreateOrder :=
  { company := none, contact_name := some "Jane Doe", contact_email := some "jane@example.com",
    contact_phone := none,
    items := some [{ sku := some "NOPE", name := some "x", quantity := some 1,
                     unit_price := some 0, subtotal := some 0 }],
    notes := none }

/-- The request item of `cexRawMissing` after schema validation. -/
def cexMissingItem : OrderItem :=
  { sku := "NOPE", name := "x", quantity := 1, unit_price := 0, subtotal := 0 }

/-- The validated body of `cexRawMissing`. -/
def cexOrderMissing : CreateOrder :=
  { company := none, contact_name := "Jane Doe", contact_email := "jane@example.com",
    contact_phone := none, items := [cexMissingItem], notes := none }

/-- Witness for C3: ordering sku "NOPE" against the one-entry store yields
the 404 naming "NOPE" and no writes. -/
theorem place_order_missing_sku_404_witness :
    postOrder exDb cexRawMissing = (.error (.http 404 "SKU not found: NOPE"), []) := by
  have h := place_order_missing_sku_404 exDb cexRawMissing cexOrderMissing cexMissingItem
    (by norm_num [validateCreateOrder, cexRawMissing, mapExcept, validateOrderItem,
        mkOrderItem, cexOrderMissing, cexMissingItem])
    (by norm_num [NonnegPrices, exDb, exProd])
    (by decide)
  exact h

/-- C10: when a matching catalog document has no `price` field, the order
does not fail for that reason: the line item is priced at 0, its subtotal
is 0, and it contributes nothing to the rounded total. -/
theorem place_order_missing_price_defaults_zero :
    ∀ (db : DB) (o : CreateOrder) (pre post : List OrderItem) (it₀ : OrderItem)
      (p : StoredProduct),
      o.items = pre ++ it₀ :: post →
      (∀ it ∈ o.items, 1 ≤ it.quantity) →
      (∀ it ∈ o.items, (findProd db it.sku).isSome) →
      NonnegPrices db →
      isValidEmail o.contact_email = true →
      findProd db it₀.sku = some p →
      p.price = none →
      ∃ resp so, place_order db o = (.ok resp, [.insertOrder so]) ∧
        so.doc.items = o.items.map (priced db) ∧
        (priced db it₀).unit_price = 0 ∧ (priced db it₀).subtotal = 0 ∧
        so.doc.total_amount =
          roundQ2 ((((pre ++ post).map (priced db)).map (fun v => v.subtotal)).sum) := by
  intro db o pre post it₀ p hsplit hq hs hnn he hp hnone
  have hrun := place_order_eq_ok hnn hq hs he
  have hzero_u : (priced db it₀).unit_price = 0 := by simp [priced, hp, hnone]
  have hzero : (priced db it₀).subtotal = 0 := by simp [priced, hp, hnone]
  refine ⟨_, _, hrun, rfl, hzero_u, hzero, ?_⟩
  simp only [hsplit, List.map_append, List.map_cons, List.sum_append, List.sum_cons,
    hzero, zero_add]

/-- A stored catalog document with no `price` field. -/
def exProdNoPrice : StoredProduct :=
  { oid := 1, name := "Legacy Plan", sku := "LEGACY-1", vendor := "Saad",
    description := none, price := none, duration_months := 12, tier := none,
    features := [], terms_url := none }

/-- A store holding only the priceless document. -/
def exDbNoPrice : DB := { licenseproduct := [exProdNoPrice], licenseorder := [], nextId := 3 }

/-- A request item for the priceless document. -/
def exItemNoPrice : OrderItem :=
  { sku := "LEGACY-1", name := "x", quantity := 4, unit_price := 0, subtotal := 0 }

/-- A validated order request for the priceless document. -/
def exOrderNoPrice : CreateOrder :=
  { company := none, contact_name := "Jane Doe", contact_email := "jane@example.com",
    contact_phone := none, items := [exItemNoPrice], notes := none }

/-- Witness for C10: ordering four units of the priceless plan succeeds with
a zero-priced line item. -/
theorem place_order_missing_price_defaults_zero_witness :
    ∃ resp so, place_order exDbNoPrice exOrderNoPrice = (.ok resp, [.insertOrder so]) ∧
      so.doc.items = exOrderNoPrice.items.map (priced exDbNoPrice) ∧
      (priced exDbNoPrice exItemNoPrice).unit_price = 0 ∧
      (priced exDbNoPrice exItemNoPrice).subtotal = 0 ∧
      so.doc.total_amount =
        roundQ2 (((([] ++ ([] : List OrderItem)).map (priced exDbNoPrice)).map
          (fun v : OrderItem => v.subtotal)).sum) := by
  exact place_order_missing_price_defaults_zero exDbNoPrice exOrderNoPrice [] []
    exItemNoPrice exProdNoPrice rfl
    (by norm_num [exOrderNoPrice, exItemNoPrice])
    (by norm_num [exOrderNoPrice, exItemNoPrice, findProd, exDbNoPrice, exProdNoPrice])
    (by norm_num [NonnegPrices, exDbNoPrice, exProdNoPrice])
    (by decide)
    (by decide)
    rfl

/-- C4: seeding is idempotent — on a non-empty catalog it is a no-op
reporting the existing count; only on an empty catalog does it insert the
three fixed sample plans and report 3 inserted; seeding twice from empty
leaves exactly 3 entries, and seeding a non-empty catalog never changes it. -/
theorem seed_licenses_idempotent :
    (∀ db : DB, db.licenseproduct ≠ [] →
       seed_licenses db = (.already db.licenseproduct.length, []) ∧
       applyWrites db (seed_licenses db).2 = db) ∧
    (∀ db : DB, db.licenseproduct = [] →
       (seed_licenses db).1 = .seeded 3 ∧
       (applyWrites db (seed_licenses db).2).licenseproduct =
         [toStored db.nextId sample1, toStored (db.nextId + 1) sample2,
          toStored (db.nextId + 2) sample3]) ∧
    (∀ db : DB, db.licenseproduct = [] →
       (applyWrites (applyWrites db (seed_licenses db).2)
          (seed_licenses (applyWrites db (seed_licenses db).2)).2).licenseproduct.length = 3) := by
  have hne : ∀ db : DB, db.licenseproduct ≠ [] →
      seed_licenses db = (.already db.licenseproduct.length, []) := by
    intro db h
    have hlen : db.licenseproduct.length > 0 := List.length_pos.mpr h
    simp [seed_licenses, hlen]
  have hemp : ∀ db : DB, db.licenseproduct = [] →
      seed_licenses db =
        (.seeded 3,
         [.insertProduct (toStored db.nextId sample1),
          .insertProduct (toStored (db.nextId + 1) sample2),
          .insertProduct (toStored (db.nextId + 2) sample3)]) := by
    intro db h
    simp [seed_licenses, h]
  refine ⟨?_, ?_, ?_⟩
  · intro db h
    refine ⟨hne db h, ?_⟩
    rw [hne db h]
    simp [applyWrites]
  · intro db h
    rw [hemp db h]
    exact ⟨rfl, by simp [applyWrites, applyWrite, h]⟩
  · intro db h
    have hlp : (applyWrites db (seed_licenses db).2).licenseproduct =
        [toStored db.nextId sample1, toStored (db.nextId + 1) sample2,
         toStored (db.nextId + 2) sample3] := by
      rw [hemp db h]
      simp [applyWrites, applyWrite, h]
    have hne1 : (applyWrites db (seed_licenses db).2).licenseproduct ≠ [] := by
      rw [hlp]
      simp
    rw [hne _ hne1]
    show (applyWrites db (seed_licenses db).2).licenseproduct.length = 3
    rw [hlp]
    rfl

/-- Witness for C4: seeding the empty store inserts exactly the three sample
plans and reports 3 inserted. -/
theorem seed_licenses_idempotent_witness :
    (seed_licenses { licenseproduct := [], licenseorder := [], nextId := 0 }).1 = .seeded 3 ∧
      (applyWrites { licenseproduct := [], licenseorder := [], nextId := 0 }
        (seed_licenses { licenseproduct := [], licenseorder := [], nextId := 0 }).2).licenseproduct =
        [toStored 0 sample1, toStored 1 sample2, toStored 2 sample3] := by
  have h := seed_licenses_idempotent.2.1
    { licenseproduct := [], licenseorder := [], nextId := 0 } rfl
  simpa using h

/-- C5: creating a product whose sku is already in the catalog fails with
the 400 "SKU already exists" error and performs no insert, so sku uniqueness
is preserved by any sequence of sequential create requests. -/
theorem create_license_sku_unique :
    (∀ (db : DB) (product : LicenseProduct),
       (∃ p ∈ db.licenseproduct, p.sku = product.sku) →
       create_license db product = (.error (.http 400 "SKU already exists"), [])) ∧
    (∀ (db : DB) (l : List LicenseProduct),
       UniqueSkus db.licenseproduct → UniqueSkus (runCreates db l).licenseproduct) := by
  constructor
  · rintro db product ⟨p, hp, hsku⟩
    have hex : (db.licenseproduct.find? (fun q => q.sku == product.sku)).isSome := by
      rw [List.find?_isSome]
      exact ⟨p, hp, by simp [hsku]⟩
    obtain ⟨q, hq⟩ := Option.isSome_iff_exists.mp hex
    simp only [create_license, findProd, hq]
  · intro db l
    induction l generalizing db with
    | nil => intro h; exact h
    | cons p ps ih =>
      intro h
      unfold runCreates
      cases hf : findProd db p.sku with
      | some q =>
        simp only [create_license, hf]
        have : applyWrites db [] = db := rfl
        rw [this]
        exact ih db h
      | none =>
        simp only [create_license, hf]
        apply ih
        simp only [applyWrites, List.foldl_cons, List.foldl_nil, applyWrite]
        unfold UniqueSkus at h ⊢
        refine List.pairwise_append.mpr ⟨h, List.pairwise_singleton .., ?_⟩
        intro a ha b hb
        rw [List.mem_singleton] at hb
        subst hb
        have hnone := List.find?_eq_none.mp hf a ha
        simpa [toStored] using hnone

/-- A create-product request reusing the sku already present in `exDb`. -/
def dupProduct : LicenseProduct :=
  { name := "Another Pro", sku := "SAAD-PRO-1Y", vendor := "Saad",
    description := none, price := 10, duration_months := 12, tier := none,
    features := [], terms_url := none }

/-- Witness for C5: the duplicate create against `exDb` is rejected with the
exact error and no write. -/
theorem create_license_sku_unique_witness :
    create_license exDb dupProduct = (.error (.http 400 "SKU already exists"), []) :=
  create_license_sku_unique.1 exDb dupProduct ⟨exProd, by simp [exDb], rfl⟩

/-- C6 counterexample: with `vendor` supplied as the empty string, the code
treats the filter as absent (the `if vendor:` truthiness test) and returns
the whole catalog: an entry whose vendor is "Saad" — not equal to "" — is
returned, contradicting "when vendor is given, it is an exact-match
filter". -/
theorem list_licenses_empty_vendor_cex :
    list_licenses exDb none (some "") = .ok [stripDoc exProd] ∧
      ¬((stripDoc exProd).vendor = "") := by
  constructor
  · norm_num [list_licenses, exDb, exProd, catalogFilter, truthy, mapExcept,
      toLicenseProduct, stripDoc]
  · decide

/-- C6 (amended): a `q` or `vendor` given as the empty string is treated as
not given; otherwise, an entry is returned iff (when `q` is given) `q` is a
case-insensitive substring of its name OR description OR sku, AND (when
`vendor` is given) its vendor equals `vendor` exactly; with neither filter
active the unfiltered catalog is returned; every returned entry is the
stored document with the internal storage identifier stripped. -/
theorem list_licenses_search :
    ∀ (db : DB) (q v : Option String),
      (∀ p ∈ db.licenseproduct, SchemaValid p) →
      ∃ l, list_licenses db q v = .ok l ∧
        ∀ x, x ∈ l ↔ ∃ p ∈ db.licenseproduct,
          x = stripDoc p ∧
          (truthy q = true → textMatch (q.getD "") p = true) ∧
          (truthy v = true → p.vendor = v.getD "") := by
  intro db q v hval
  have hall : ∀ p ∈ db.licenseproduct.filter (catalogFilter q v),
      toLicenseProduct p = .ok (stripDoc p) := by
    intro p hp
    exact toLicenseProduct_eq_ok (hval p (List.mem_of_mem_filter hp))
  refine ⟨_, mapExcept_ok_of_all _ _ _ hall, ?_⟩
  intro x
  constructor
  · intro hx
    obtain ⟨p, hpf, hpx⟩ := List.mem_map.mp hx
    obtain ⟨hpl, hf⟩ := List.mem_filter.mp hpf
    exact ⟨p, hpl, hpx.symm, (catalogFilter_true_iff q v p).mp hf⟩
  · rintro ⟨p, hpl, hx, hcond⟩
    exact List.mem_map.mpr
      ⟨p, List.mem_filter.mpr ⟨hpl, (catalogFilter_true_iff q v p).mpr hcond⟩, hx.symm⟩

/-- Witness for C6 at the concrete store: searching "pro" with vendor
"Saad" returns the matching stripped entry. -/
theorem list_licenses_search_witness :
    ∃ l, list_licenses exDb (some "pro") (some "Saad") = .ok l ∧
      ∀ x, x ∈ l ↔ ∃ p ∈ exDb.licenseproduct,
        x = stripDoc p ∧
        (truthy (some "pro") = true → textMatch ((some "pro").getD "") p = true) ∧
        (truthy (some "Saad") = true → p.vendor = (some "Saad").getD "") :=
  list_licenses_search exDb (some "pro") (some "Saad")
    (by norm_num [exDb, SchemaValid, exProd])

/-- A raw order body with a malformed email and an unknown sku. -/
def cexRawEmail : RawCreateOrder :=
  { company := none, contact_name := some "Jane Doe",
    contact_email := some "not-an-email", contact_phone := none,
    items := some [{ sku := some "NOPE", name := some "x", quantity := some 1,
                     unit_price := some 0, subtotal := some 0 }],
    notes := none }

/-- C7 counterexample: the malformed email "not-an-email" passes the request
schema (`contact_email` is a plain string there, main.py line 135) and the
handler body runs: the result is the 404 from the catalog lookup of "NOPE",
not a validation error — so the email was not rejected before the handler
body, nor before the catalog read. -/
theorem invalid_email_reaches_handler_cex :
    isValidEmail "not-an-email" = false ∧
      postOrder { licenseproduct := [], licenseorder := [], nextId := 0 } cexRawEmail =
        (.error (.http 404 "SKU not found: NOPE"), []) := by
  refine ⟨by decide, ?_⟩
  norm_num [postOrder, validateCreateOrder, cexRawEmail, mapExcept, validateOrderItem,
    mkOrderItem, place_order, priceItems, findProd,
    (show ("SKU not found: " ++ "NOPE" : String) = "SKU not found: NOPE" from rfl)]

/-- C7 (amended): a syntactically invalid `contact_email` is not rejected by
the request schema (which types it as a plain string); the request still
always fails — the order-document schema rejects the email inside the
handler, after the catalog reads and before the insert — and no write is
ever performed for it. -/
theorem invalid_email_no_insert :
    ∀ (db : DB) (raw : RawCreateOrder) (o : CreateOrder),
      validateCreateOrder raw = .ok o →
      isValidEmail o.contact_email = false →
      (∃ e, (postOrder db raw).1 = .error e) ∧ (postOrder db raw).2 = [] := by
  intro db raw o hv he
  cases hp : priceItems db o.items with
  | error e =>
    exact ⟨⟨e, by simp only [postOrder, hv, place_order, hp]⟩,
      by simp only [postOrder, hv, place_order, hp]⟩
  | ok pr =>
    obtain ⟨vs, t⟩ := pr
    exact ⟨⟨.validation "contact_email is not a valid email address",
        by simp only [postOrder, hv, place_order, hp, mkLicenseOrder_invalid_email he]⟩,
      by simp only [postOrder, hv, place_order, hp, mkLicenseOrder_invalid_email he]⟩

/-- The validated body of `cexRawEmail`. -/
def cexOrderEmail : CreateOrder :=
  { company := none, contact_name := "Jane Doe", contact_email := "not-an-email",
    contact_phone := none,
    items := [{ sku := "NOPE", name := "x", quantity := 1, unit_price := 0, subtotal := 0 }],
    notes := none }

/-- Witness for C7: on the concrete malformed-email request the endpoint
fails and writes nothing. -/
theorem invalid_email_no_insert_witness :
    (∃ e, (postOrder exDb cexRawEmail).1 = .error e) ∧
      (postOrder exDb cexRawEmail).2 = [] :=
  invalid_email_no_insert exDb cexRawEmail cexOrderEmail
    (by norm_num [validateCreateOrder, cexRawEmail, mapExcept, validateOrderItem,
        mkOrderItem, cexOrderEmail])
    (by decide)

/-- A raw order body with an empty items list and valid contact fields. -/
def cexRawEmptyItems : RawCreateOrder :=
  { company := none, contact_name := some "Jane Doe",
    contact_email := some "jane@example.com", contact_phone := none,
    items := some [], notes := none }

/-- C8 counterexample: an empty items list is not rejected — the request is
accepted and persists an order with no items and total 0. -/
theorem empty_items_accepted_cex :
    postOrder { licenseproduct := [], licenseorder := [], nextId := 0 } cexRawEmptyItems =
      (.ok { order_id := 0, total := 0, status := "pending" },
       [.insertOrder { oid := 0, doc :=
         { company := none, contact_name := "Jane Doe",
           contact_email := "jane@example.com", contact_phone := none, items := [],
           total_amount := 0, vendor := "Saad", status := "pending", notes := none } }]) := by
  norm_num [postOrder, validateCreateOrder, cexRawEmptyItems, mapExcept, place_order,
    priceItems, mkLicenseOrder, roundQ2_zero,
    (show isValidEmail "jane@example.com" = true by decide)]

/-- C8 (amended): the request schema requires every item to carry all five
`OrderItem` fields — `sku`, `name`, `quantity`, `unit_price`, `subtotal` —
with `quantity ≥ 1` (a quantity below 1 is rejected as a validation error),
`unit_price ≥ 0` and `subtotal ≥ 0`; an empty items list is not rejected:
such a request is accepted and persisted as an order with no items and
total 0. -/
theorem order_items_schema :
    (∀ (r : RawOrderItem) (v : OrderItem), validateOrderItem r = .ok v →
        r.sku = some v.sku ∧ r.name = some v.name ∧ r.quantity = some v.quantity ∧
        r.unit_price = some v.unit_price ∧ r.subtotal = some v.subtotal ∧
        1 ≤ v.quantity ∧ 0 ≤ v.unit_price ∧ 0 ≤ v.subtotal) ∧
    (∀ (r : RawOrderItem) (k : ℤ), r.quantity = some k → k < 1 →
        ∃ m, validateOrderItem r = .error (.validation m)) ∧
    (∀ (db : DB) (o : CreateOrder), o.items = [] →
        isValidEmail o.contact_email = true →
        place_order db o =
          (.ok { order_id := db.nextId, total := 0, status := "pending" },
           [.insertOrder { oid := db.nextId, doc :=
             { company := o.company, contact_name := o.contact_name,
               contact_email := o.contact_email, contact_phone := o.contact_phone,
               items := [], total_amount := 0, vendor := "Saad",
               status := "pending", notes := o.notes } }])) := by
  refine ⟨?_, ?_, ?_⟩
  · intro r v h
    exact validateOrderItem_ok h
  · intro r k hk hlt
    unfold validateOrderItem
    split
    · next sku name q u st hs hn hq hu ht =>
      rw [hk] at hq
      injection hq with hq
      subst hq
      exact ⟨_, by unfold mkOrderItem; rw [if_neg (by omega)]⟩
    · exact ⟨_, rfl⟩
  · intro db o hitems he
    have h0 : priceItems db o.items = .ok ([], 0) := by rw [hitems]; rfl
    simp only [place_order, h0, roundQ2_zero, mkLicenseOrder_eq_ok he (le_refl (0 : ℚ))]

/-- Witness for C8: an item with `quantity = 0` is rejected by the schema
with a validation error. -/
theorem order_items_schema_witness :
    ∃ m, validateOrderItem
      { sku := some "SAAD-PRO-1Y", name := some "x", quantity := some 0,
        unit_price := some 0, subtotal := some 0 } = .error (.validation m) :=
  order_items_schema.2.1
    { sku := some "SAAD-PRO-1Y", name := some "x", quantity := some 0,
      unit_price := some 0, subtotal := some 0 } 0 rfl (by norm_num)

end NWTech
